import Mathlib

/-!
# Resource-list data source of the VCD provider

A shallow embedding of `vcd/datasource_vcd_resource_list.go`: the generic list
formatter `genericResourceList`, the listing functions `vmList` and
`networkList`, the schema of the data source and the dispatcher
`datasourceVcdResourceListRead`.

Conventions of the embedding

* a Go `string` is a `String`, a Go slice is a `List` (the `nil` slice and the
  empty slice are both `[]`);
* a Go `error` is its message; a result `(list, err)` is a pair whose second
  component is `none` for a `nil` error;
* calls into the client SDK (`GetOrgAndVdc`, `QueryVmList`, ...) are fields of
  an explicit environment, so every theorem holds for whatever the SDK answers.
-/

namespace Vcd

/-! ## Data model -/

/-- The `resourceRef` struct: what a listing function knows about one entity. -/
structure resourceRef where
  name : String
  id : String
  href : String
  parent : String
  importId : Bool
  deriving DecidableEq, Repr

/-- Modelled from the spec: the declaration of the constant `ImportSeparator` is
missing from the source files at hand. Its value is the dot of the "dot
formatted path" `org.catalog.my-media-name` that the comment of
`resourceVcdCatalogMediaImport` documents and that the function splits on. -/
def ImportSeparator : String := "."

/-- Go `strings.Join(elems, sep)`. -/
def stringsJoin (elems : List String) (sep : String) : String :=
  sep.intercalate elems

/-! ## genericResourceList -/

/-- One iteration of the `for _, ref := range refs` loop of
`genericResourceList`: the `switch listMode` appends one entry to `list`, or
leaves `list` alone when no `case` matches (the switch has no `default`). -/
def genericResourceListStep (resType listMode nameIdSeparator : String)
    (ancestors : List String) (list : List String) (ref : resourceRef) : List String :=
  if listMode = "name" then
    list ++ [ref.name]
  else if listMode = "id" then
    list ++ [ref.id]
  else if listMode = "name_id" then
    list ++ [ref.name ++ nameIdSeparator ++ ref.id]
  else if listMode = "hierarchy" then
    if ref.parent ≠ "" then
      list ++ [stringsJoin ancestors nameIdSeparator ++
        nameIdSeparator ++ ref.parent ++
        nameIdSeparator ++ ref.name]
    else
      list ++ [stringsJoin ancestors nameIdSeparator ++ nameIdSeparator ++ ref.name]
  else if listMode = "href" then
    list ++ [ref.href]
  else if listMode = "import" then
    let identifier :=
      if ref.importId then ref.id ++ " # " ++ ref.parent ++ "/" ++ ref.name
      else ref.name
    list ++ ["terraform import " ++ resType ++ "." ++ ref.name ++ " " ++
      stringsJoin ancestors ImportSeparator ++ ImportSeparator ++ identifier]
  else
    list

/-- The function `genericResourceList`: the loop over `refs`, starting from the
`nil` list, followed by `return list, nil`. -/
def genericResourceList (resType listMode nameIdSeparator : String)
    (ancestors : List String) (refs : List resourceRef) : List String × Option String :=
  (refs.foldl (genericResourceListStep resType listMode nameIdSeparator ancestors) [], none)

/-- The six list modes named by the `case`s of `genericResourceList`. -/
def listModes : List String :=
  ["name", "id", "name_id", "hierarchy", "href", "import"]

/-! ## Schema of the data source -/

/-- The value types of the schema that the data source uses. -/
inductive ValueType where
  | TypeString
  | TypeList
  deriving DecidableEq, Repr

/-- The case-insensitive comparison of the validator, on the letters A to Z and
a to z only. Spellings with letters outside ASCII (which a comparison through
`strings.ToLower` or `strings.EqualFold` may also accept) are outside this
model; every spelling of a list mode in ASCII letters is compared as Go does. -/
def equalFold (s t : String) : Bool :=
  s.data.map Char.toLower == t.data.map Char.toLower

/-- The validator `validation.StringInSlice(valid, ignoreCase)` of the plugin
SDK: `true` when it reports no error, that is when the value equals one of
`valid`, or equals it under case folding when `ignoreCase` is set. -/
def StringInSlice (valid : List String) (ignoreCase : Bool) (v : String) : Bool :=
  valid.any fun str => v == str || (ignoreCase && equalFold v str)

/-- One `schema.Schema` entry, with the fields the data source fills in. -/
structure Schema where
  Typ : ValueType
  Optional : Bool := false
  Required : Bool := false
  Computed : Bool := false
  Default : Option String := none
  ValidateFunc : Option (String → Bool) := none

/-- The `Schema` map of `datasourceVcdResourceList`. -/
def datasourceVcdResourceList : List (String × Schema) :=
  [ ("org", { Typ := .TypeString, Optional := true }),
    ("vdc", { Typ := .TypeString, Optional := true }),
    ("parent", { Typ := .TypeString, Optional := true }),
    ("name", { Typ := .TypeString, Required := true }),
    ("resource_type", { Typ := .TypeString, Required := true }),
    ("list", { Typ := .TypeList, Computed := true }),
    ("list_mode",
      { Typ := .TypeString, Optional := true, Default := some "name",
        ValidateFunc := some (StringInSlice
          ["name", "id", "href", "import", "name_id", "hierarchy"] true) }),
    ("name_id_separator",
      { Typ := .TypeString, Optional := true, Default := some "  " }) ]

/-- The default the schema declares for attribute `key` (`none` when the
attribute is unknown or has no default). -/
def schemaDefault (key : String) : Option String :=
  match datasourceVcdResourceList.lookup key with
  | some s => s.Default
  | none => none

/-- The validator the schema declares for `list_mode`, applied to `v`; a field
without validator accepts every value. -/
def listModeValid (v : String) : Bool :=
  match datasourceVcdResourceList.lookup "list_mode" with
  | some s =>
    match s.ValidateFunc with
    | some f => f v
    | none => true
  | none => true

/-- The `schema.ResourceData` of one read: the string attributes of the
configuration, the computed attribute `list` (`none` while unset) and the ID
(the empty string while unset). -/
structure ResourceData where
  config : List (String × String)
  list : Option (List String)
  id : String
  deriving DecidableEq, Repr

/-- The call `d.Get(key).(string)`: the configured value, else the default of
the schema, else the zero value of a string. -/
def ResourceData.Get (d : ResourceData) (key : String) : String :=
  match d.config.lookup key with
  | some v => v
  | none => (schemaDefault key).getD ""

/-- The call `d.SetId(v)`. -/
def ResourceData.SetId (d : ResourceData) (v : String) : ResourceData :=
  { d with id := v }

/-! ## The client SDK, as far as `vmList` and `networkList` call it -/

/-- A record of `vdc.QueryVmList`. -/
structure QueryResultVMRecordType where
  Name : String
  HREF : String
  ContainerName : String
  AutoNature : Bool
  deriving DecidableEq, Repr

/-- A record of `vdc.GetNetworkList`. -/
structure QueryResultOrgVdcNetworkRecordType where
  LinkType : Int
  HREF : String
  deriving DecidableEq, Repr

/-- The `OrgVDCNetwork` fields read by `networkList`. -/
structure OrgVDCNetwork where
  Name : String
  ID : String
  HREF : String
  deriving DecidableEq, Repr

/-- A VDC handle: its name (`vdc.Vdc.Name`) and the answers of the three
methods called on it. `QueryVmList` is the answer for the filter
`types.VmQueryFilterOnlyDeployed`. -/
structure Vdc where
  Name : String
  QueryVmList : Except String (List QueryResultVMRecordType)
  GetNetworkList : Except String (List QueryResultOrgVdcNetworkRecordType)
  GetOrgVdcNetworkByHref : String → Except String OrgVDCNetwork

/-- An organization handle: its name (`org.Org.Name`). -/
structure Org where
  Name : String

/-- The `*VCDClient` behind `meta`. -/
structure VCDClient where
  GetOrgAndVdc : String → String → Except String (Org × Vdc)

/-- Declarations used by `vmList` and by the dispatcher whose text lies outside
the files at hand: the function `extractUuid` and the two `typeOfVm` constants. -/
structure Externals where
  extractUuid : String → String
  standaloneVmType : String
  vappVmType : String

/-! ## vmList -/

/-- One iteration of the `for _, vm := range vmList` loop of `vmList`: three
`continue` guards, then the reference appended to `items`. -/
def vmListStep (ext : Externals) (vmType vappName : String)
    (items : List resourceRef) (vm : QueryResultVMRecordType) : List resourceRef :=
  if vmType = ext.standaloneVmType ∧ vm.AutoNature = false then
    items
  else if vmType = ext.vappVmType ∧ vm.AutoNature = true then
    items
  else if vappName ≠ "" ∧ vappName ≠ vm.ContainerName then
    items
  else
    items ++ [{ name := vm.Name
                id := "urn:vcloud:vm:" ++ ext.extractUuid vm.HREF
                href := vm.HREF
                parent := vm.ContainerName
                importId := true }]

/-- The references `vmList` builds from the answer of `QueryVmList`: the whole
loop, starting from the `nil` slice `items`. -/
def vmListItems (ext : Externals) (vmType vappName : String)
    (vms : List QueryResultVMRecordType) : List resourceRef :=
  vms.foldl (vmListStep ext vmType vappName) []

/-- The function `vmList`. -/
def vmList (ext : Externals) (client : VCDClient) (d : ResourceData) (vmType : String) :
    List String × Option String :=
  let listMode := d.Get "list_mode"
  let nameIdSeparator := d.Get "name_id_separator"
  match client.GetOrgAndVdc (d.Get "org") (d.Get "vdc") with
  | .error err => ([], some err)
  | .ok (org, vdc) =>
    let vappName := d.Get "parent"
    match vdc.QueryVmList with
    | .error err => ([], some err)
    | .ok vms =>
      genericResourceList "vcd_vm" listMode nameIdSeparator [org.Name, vdc.Name]
        (vmListItems ext vmType vappName vms)

/-! ## networkList -/

/-- The `switch net.LinkType` of `networkList`: the variable `networkType` is
declared before the loop, so a link type other than 0, 1, 2 leaves in it the
value of the previous iteration. -/
def networkTypeOf (linkType : Int) (networkType : String) : String :=
  if linkType = 0 then "direct"
  else if linkType = 1 then "routed"
  else if linkType = 2 then "isolated"
  else networkType

/-- The `switch listMode` of `networkList`: one entry appended to `list`, or
`list` left alone when no `case` matches. -/
def networkListEntry (listMode nameIdSeparator orgName vdcName networkType : String)
    (network : OrgVDCNetwork) (list : List String) : List String :=
  if listMode = "name" then
    list ++ [network.Name]
  else if listMode = "id" then
    list ++ [network.ID]
  else if listMode = "name_id" then
    list ++ [network.Name ++ nameIdSeparator ++ network.ID]
  else if listMode = "hierarchy" then
    list ++ [orgName ++ nameIdSeparator ++ vdcName ++ nameIdSeparator ++ network.Name]
  else if listMode = "href" then
    list ++ [network.HREF]
  else if listMode = "import" then
    list ++ ["terraform import vcd_network_" ++ networkType ++ "." ++ network.Name ++ " " ++
      orgName ++ ImportSeparator ++ vdcName ++ ImportSeparator ++ network.Name]
  else
    list

/-- The `for _, net := range networkList` loop of `networkList`, with the loop
state (`networkType`, `list`) passed along; a failing
`GetOrgVdcNetworkByHref` returns `[]string{}` and the error at once. -/
def networkListLoop (vdc : Vdc) (wantedType listMode nameIdSeparator orgName : String) :
    List QueryResultOrgVdcNetworkRecordType → String → List String →
      List String × Option String
  | [], _, list => (list, none)
  | net :: rest, networkType, list =>
    let networkType := networkTypeOf net.LinkType networkType
    let resourceName :=
      if wantedType ≠ "network" then "vcd_network_" ++ networkType else "network"
    if wantedType ≠ resourceName then
      networkListLoop vdc wantedType listMode nameIdSeparator orgName rest networkType list
    else
      match vdc.GetOrgVdcNetworkByHref net.HREF with
      | .error err => ([], some err)
      | .ok network =>
        networkListLoop vdc wantedType listMode nameIdSeparator orgName rest networkType
          (networkListEntry listMode nameIdSeparator orgName vdc.Name networkType network list)

/-- The function `networkList`. -/
def networkList (client : VCDClient) (d : ResourceData) : List String × Option String :=
  let wantedType := d.Get "resource_type"
  let listMode := d.Get "list_mode"
  let nameIdSeparator := d.Get "name_id_separator"
  match client.GetOrgAndVdc (d.Get "org") (d.Get "vdc") with
  | .error err => ([], some err)
  | .ok (org, vdc) =>
    match vdc.GetNetworkList with
    | .error err => ([], some err)
    | .ok nets => networkListLoop vdc wantedType listMode nameIdSeparator org.Name nets "" []

/-! ## datasourceVcdResourceListRead -/

/-- The `typeOfVm` argument the dispatcher passes to `vmList`: one of the two
named constants, or the conversion `typeOfVm("all")`. -/
inductive typeOfVm where
  | vappVmType
  | standaloneVmType
  | conv (s : String)
  deriving DecidableEq, Repr

/-- The string value of a `typeOfVm` argument. -/
def typeOfVm.val (ext : Externals) : typeOfVm → String
  | .vappVmType => ext.vappVmType
  | .standaloneVmType => ext.standaloneVmType
  | .conv s => s

/-- The calls on the right-hand sides of the dispatch `switch`, each with the
arguments it is given besides `d` and `meta`. -/
inductive ListingCall where
  | getResourcesList
  | orgList
  | externalNetworkList
  | vdcList
  | catalogList
  | catalogItemList (wantMedia : Bool)
  | vappList
  | vmList (vmType : typeOfVm)
  | orgUserList
  | edgeGatewayList
  | nsxtEdgeGatewayList
  | lbServerPoolList
  | lbServiceMonitorList
  | lbVirtualServerList
  | lbAppRuleList
  | lbAppProfileList
  | nsxvFirewallList
  | ipsetList
  | nsxvNatRuleList (natType : String)
  | networkList
  | orgNetworkListV2
  | rightsList
  | rightsBundlesList
  | rolesList
  | globalRolesList
  | libraryCertificateList
  deriving DecidableEq, Repr

/-- The `case` clauses of `switch requested` in
`datasourceVcdResourceListRead`, in the order of the source: the strings of
each clause and the call it makes. -/
def dispatchSwitch : List (List String × ListingCall) :=
  [ (["resource", "resources"], .getResourcesList),
    (["vcd_org", "org", "orgs"], .orgList),
    (["vcd_external_network", "external_network", "external_networks"], .externalNetworkList),
    (["vcd_org_vdc", "vdc", "vdcs"], .vdcList),
    (["vcd_catalog", "catalog", "catalogs"], .catalogList),
    (["vcd_catalog_item", "catalog_item", "catalog_items", "catalogitem", "catalogitems"],
      .catalogItemList false),
    (["vcd_catalog_media", "catalog_media", "media_items", "mediaitems", "mediaitem"],
      .catalogItemList true),
    (["vcd_vapp", "vapp", "vapps"], .vappList),
    (["vcd_vapp_vm", "vapp_vm", "vapp_vms"], .vmList .vappVmType),
    (["vcd_vm", "standalone_vm"], .vmList .standaloneVmType),
    (["vcd_all_vm", "vm", "vms"], .vmList (.conv "all")),
    (["vcd_org_user", "org_user", "user", "users"], .orgUserList),
    (["vcd_edgegateway", "edge_gateway", "edge", "edgegateway"], .edgeGatewayList),
    (["vcd_nsxt_edgegateway", "nsxt_edge_gateway", "nsxt_edge", "nsxt_edgegateway"],
      .nsxtEdgeGatewayList),
    (["vcd_lb_server_pool", "lb_server_pool"], .lbServerPoolList),
    (["vcd_lb_service_monitor", "lb_service_monitor"], .lbServiceMonitorList),
    (["vcd_lb_virtual_server", "lb_virtual_server"], .lbVirtualServerList),
    (["vcd_lb_app_rule", "lb_app_rule"], .lbAppRuleList),
    (["vcd_lb_app_profile", "lb_app_profile"], .lbAppProfileList),
    (["vcd_nsxv_firewall_rule", "nsxv_firewall_rule"], .nsxvFirewallList),
    (["vcd_ipset", "ipset"], .ipsetList),
    (["vcd_nsxv_dnat", "nsxv_dnat"], .nsxvNatRuleList "dnat"),
    (["vcd_nsxv_snat", "nsxv_snat"], .nsxvNatRuleList "snat"),
    (["vcd_network_isolated", "vcd_network_direct", "vcd_network_routed",
      "network", "networks", "network_direct", "network_routed", "network_isolated"],
      .networkList),
    (["vcd_network_routed_v2", "vcd_network_isolated_v2", "vcd_nsxt_network_imported"],
      .orgNetworkListV2),
    (["vcd_right", "rights"], .rightsList),
    (["vcd_rights_bundle", "rights_bundle"], .rightsBundlesList),
    (["vcd_role", "roles"], .rolesList),
    (["vcd_global_role", "global_roles"], .globalRolesList),
    (["vcd_library_certificate"], .libraryCertificateList) ]

/-- The strings listed in the dispatch `switch`. -/
def handledResourceTypes : List String :=
  dispatchSwitch.flatMap Prod.fst

/-- The clause `switch requested` selects: the first one that lists
`requested` (string equality, as Go compares `case` values), `none` for the
`default` clause. -/
def selectListing (requested : String) : Option ListingCall :=
  (dispatchSwitch.find? fun c => c.1.contains requested).map Prod.snd

/-- Severity of a `diag.Diagnostic`. -/
inductive Severity where
  | Error
  | Warning
  deriving DecidableEq, Repr

/-- A `diag.Diagnostic`: severity and summary. -/
structure Diagnostic where
  severity : Severity
  summary : String
  deriving DecidableEq, Repr

/-- The call `diag.FromErr(err)` for a non-nil `err`: one error diagnostic whose
summary is the message of `err`. -/
def diagFromErr (err : String) : List Diagnostic :=
  [{ severity := .Error, summary := err }]

/-- What the read depends on besides `d`: the listing functions with `meta`
fixed (`listing call d` is the pair `(list, err)` the call returns) and the
SDK call `d.Set("list", list)`, which returns the resource data it leaves
behind and its error. -/
structure ReadEnv where
  listing : ListingCall → ResourceData → List String × Option String
  dSetList : ResourceData → List String → ResourceData × Option String

/-- The SDK call `d.Set("list", list)` when it succeeds. -/
def ResourceData.SetList (d : ResourceData) (list : List String) : ResourceData :=
  { d with list := some list }

/-- What a run of the read leaves behind: the diagnostics it returns, the
resource data after it, and the listing calls it made. -/
structure ReadResult where
  diags : List Diagnostic
  d : ResourceData
  called : List ListingCall
  deriving DecidableEq, Repr

/-- The function `datasourceVcdResourceListRead`. -/
def datasourceVcdResourceListRead (env : ReadEnv) (d : ResourceData) : ReadResult :=
  let requested := d.Get "resource_type"
  match selectListing requested with
  | none =>
    { diags := diagFromErr ("unhandled resource type '" ++ requested ++ "'")
      d := d
      called := [] }
  | some call =>
    match env.listing call d with
    | (_, some err) => { diags := diagFromErr err, d := d, called := [call] }
    | (list, none) =>
      match env.dSetList d list with
      | (d1, some err) => { diags := diagFromErr err, d := d1, called := [call] }
      | (d1, none) => { diags := [], d := d1.SetId (d1.Get "name"), called := [call] }

/-! ## catalogItemList -/

/-- A `types.Reference` of `catalog.Catalog.CatalogItems`. -/
structure Reference where
  Name : String
  ID : String
  HREF : String
  deriving DecidableEq, Repr

/-- The catalog item field read by `catalogItemList`:
`catalogItem.CatalogItem.Entity.Type`. -/
structure CatalogItem where
  EntityType : String
  deriving DecidableEq, Repr

/-- The `govcd.Media` fields and method read by the media resource. -/
structure Media where
  ID : String
  Name : String
  Description : String
  GetMetadata : Except String (List (String × String))

/-- The `MediaRecord` fields read by `genericVcdMediaRead`. -/
structure MediaRecord where
  IsIso : Bool
  OwnerName : String
  IsPublished : Bool
  CreationDate : String
  StorageB : Int
  Status : String
  StorageProfileName : String
  deriving DecidableEq, Repr

/-- A catalog handle: the groups `catalog.Catalog.CatalogItems` (each with its
references `CatalogItem`) and the answers of the methods called on it. -/
structure Catalog where
  CatalogItems : List (List Reference)
  GetCatalogItemByHref : String → Except String CatalogItem
  GetMediaByName : String → Except String Media
  GetMediaByNameOrId : String → Except String Media
  QueryMedia : String → Except String MediaRecord

/-- An administrator organization handle: its name (`org.AdminOrg.Name`) and
the catalog lookup by name. -/
structure AdminOrg where
  Name : String
  GetCatalogByName : String → Except String Catalog

/-- The inner loop of `catalogItemList` over the references of one group:
`items` grows by the wanted references, and a failing
`GetCatalogItemByHref` ends the whole function with its error. -/
def catalogItemListInner (catalog : Catalog) (wantMedia : Bool) :
    List Reference → List resourceRef → Except String (List resourceRef)
  | [], items => .ok items
  | reference :: rest, items =>
    let wanted := true
    match catalog.GetCatalogItemByHref reference.HREF with
    | .error err => .error err
    | .ok catalogItem =>
      let wanted :=
        if catalogItem.EntityType = "application/vnd.vmware.vcloud.media+xml" then wantMedia
        else wanted
      if wanted then
        catalogItemListInner catalog wantMedia rest
          (items ++ [{ name := reference.Name, id := reference.ID, href := reference.HREF
                       parent := "", importId := false }])
      else
        catalogItemListInner catalog wantMedia rest items

/-- The outer loop of `catalogItemList` over `catalog.Catalog.CatalogItems`. -/
def catalogItemListOuter (catalog : Catalog) (wantMedia : Bool) :
    List (List Reference) → List resourceRef → Except String (List resourceRef)
  | [], items => .ok items
  | catalogItems :: rest, items =>
    match catalogItemListInner catalog wantMedia catalogItems items with
    | .error err => .error err
    | .ok items1 => catalogItemListOuter catalog wantMedia rest items1

/-- The function `catalogItemList`; `GetAdminOrg` is the client method of that
name. -/
def catalogItemList (GetAdminOrg : String → Except String AdminOrg) (d : ResourceData)
    (wantMedia : Bool) : List String × Option String :=
  let listMode := d.Get "list_mode"
  let nameIdSeparator := d.Get "name_id_separator"
  match GetAdminOrg (d.Get "org") with
  | .error err => ([], some err)
  | .ok org =>
    let catalogName := d.Get "parent"
    if catalogName = "" then
      ([], some "no catalog name (as \"parent\") given")
    else
      match org.GetCatalogByName catalogName with
      | .error err => ([], some err)
      | .ok catalog =>
        match catalogItemListOuter catalog wantMedia catalog.CatalogItems [] with
        | .error err => ([], some err)
        | .ok items =>
          genericResourceList "vcd_catalog_item" listMode nameIdSeparator
            [org.Name, catalogName] items

/-! ## The edge gateway listings -/

/-- An edge gateway object with the fields `Name` and `ID` (server pool,
virtual server, firewall rule, application rule, application profile). -/
structure EdgeObject where
  Name : String
  ID : String
  deriving DecidableEq, Repr

/-- A load balancer service monitor: `Name`, `ID` and `URL`. -/
structure LbMonitor where
  Name : String
  ID : String
  URL : String
  deriving DecidableEq, Repr

/-- An NSX-V NAT rule: `Action` and `ID`. -/
structure EdgeNatRule where
  Action : String
  ID : String
  deriving DecidableEq, Repr

/-- An edge gateway handle: its name (`edgeGateway.EdgeGateway.Name`) and the
answers of the methods the listings call on it. -/
structure EdgeGateway where
  Name : String
  GetLbServerPools : Except String (List EdgeObject)
  GetLbServiceMonitors : Except String (List LbMonitor)
  GetLbVirtualServers : Except String (List EdgeObject)
  GetAllNsxvFirewallRules : Except String (List EdgeObject)
  GetLbAppRules : Except String (List EdgeObject)
  GetLbAppProfiles : Except String (List EdgeObject)
  GetNsxvNatRules : Except String (List EdgeNatRule)

/-- The client as `getEdgeGatewayDetails` uses it: `GetOrgAndVdc` gives the
organization name, the VDC name and the method `GetEdgeGatewayByName` of the
VDC it found. -/
structure EdgeClient where
  GetOrgAndVdc : String → String →
    Except String (String × String × (String → Except String EdgeGateway))

/-- The function `getEdgeGatewayDetails`: on success the organization name, the
VDC name, the list mode, the separator and the edge gateway. -/
def getEdgeGatewayDetails (client : EdgeClient) (d : ResourceData) :
    Except String (String × String × String × String × EdgeGateway) :=
  let listMode := d.Get "list_mode"
  let separator := d.Get "name_id_separator"
  match client.GetOrgAndVdc (d.Get "org") (d.Get "vdc") with
  | .error err => .error err
  | .ok (orgName, vdcName, GetEdgeGatewayByName) =>
    let edgeGatewayName := d.Get "parent"
    if edgeGatewayName = "" then
      .error "edge gateway name (as \"parent\") is required for this task"
    else
      match GetEdgeGatewayByName edgeGatewayName with
      | .error err =>
        .error ("error retrieving edge gateway '" ++ edgeGatewayName ++ "': " ++ err ++ " ")
      | .ok edgeGateway => .ok (orgName, vdcName, listMode, separator, edgeGateway)

/-- The reference the edge gateway listings build from a name and an ID, with
the `href` they give it. -/
def edgeRef (name id href : String) : resourceRef :=
  { name := name, id := id, href := href, parent := "", importId := false }

/-- The function `lbServerPoolList`. -/
def lbServerPoolList (client : EdgeClient) (d : ResourceData) : List String × Option String :=
  match getEdgeGatewayDetails client d with
  | .error err =>
    ([], some ("error retrieving edge gateway '" ++ d.Get "parent" ++ "': " ++ err ++ " "))
  | .ok (orgName, vdcName, listMode, separator, edgeGateway) =>
    match edgeGateway.GetLbServerPools with
    | .error err =>
      ([], some ("error retrieving edge gateway LB server pools '" ++ d.Get "parent" ++
        "': " ++ err ++ " "))
    | .ok lbServerPoolList =>
      genericResourceList "vcd_lb_server_pool" listMode separator
        [orgName, vdcName, edgeGateway.Name]
        (lbServerPoolList.map fun service => edgeRef service.Name service.ID "")

/-- The function `lbServiceMonitorList`. -/
def lbServiceMonitorList (client : EdgeClient) (d : ResourceData) :
    List String × Option String :=
  match getEdgeGatewayDetails client d with
  | .error err =>
    ([], some ("error retrieving edge gateway '" ++ d.Get "parent" ++ "': " ++ err ++ " "))
  | .ok (orgName, vdcName, listMode, separator, edgeGateway) =>
    match edgeGateway.GetLbServiceMonitors with
    | .error err => ([], some ("error retrieving LB service monitor list: " ++ err ++ " "))
    | .ok lbServiceMonitorList =>
      genericResourceList "vcd_lb_service_monitor" listMode separator
        [orgName, vdcName, edgeGateway.Name]
        (lbServiceMonitorList.map fun sm => edgeRef sm.Name sm.ID sm.URL)

/-- The function `lbVirtualServerList`. -/
def lbVirtualServerList (client : EdgeClient) (d : ResourceData) :
    List String × Option String :=
  match getEdgeGatewayDetails client d with
  | .error err =>
    ([], some ("error retrieving edge gateway '" ++ d.Get "parent" ++ "': " ++ err ++ " "))
  | .ok (orgName, vdcName, listMode, separator, edgeGateway) =>
    match edgeGateway.GetLbVirtualServers with
    | .error err => ([], some ("error retrieving LB virtual server list: " ++ err ++ " "))
    | .ok lbVirtualServerList =>
      genericResourceList "vcd_lb_virtual_server" listMode separator
        [orgName, vdcName, edgeGateway.Name]
        (lbVirtualServerList.map fun vs => edgeRef vs.Name vs.ID "")

/-- The function `nsxvFirewallList`. -/
def nsxvFirewallList (client : EdgeClient) (d : ResourceData) : List String × Option String :=
  match getEdgeGatewayDetails client d with
  | .error err =>
    ([], some ("error retrieving edge gateway '" ++ d.Get "parent" ++ "': " ++ err ++ " "))
  | .ok (orgName, vdcName, listMode, separator, edgeGateway) =>
    match edgeGateway.GetAllNsxvFirewallRules with
    | .error err => ([], some ("error retrieving NSXV firewall rule list: " ++ err ++ " "))
    | .ok fwRuleList =>
      genericResourceList "vcd_nsxv_firewall_rule" listMode separator
        [orgName, vdcName, edgeGateway.Name]
        (fwRuleList.map fun fw => edgeRef fw.Name fw.ID "")

/-- The function `lbAppRuleList`. -/
def lbAppRuleList (client : EdgeClient) (d : ResourceData) : List String × Option String :=
  match getEdgeGatewayDetails client d with
  | .error err =>
    ([], some ("error retrieving edge gateway '" ++ d.Get "parent" ++ "': " ++ err ++ " "))
  | .ok (orgName, vdcName, listMode, separator, edgeGateway) =>
    match edgeGateway.GetLbAppRules with
    | .error err => ([], some ("error retrieving LB app rule list: " ++ err ++ " "))
    | .ok ruleList =>
      genericResourceList "vcd_lb_app_rule" listMode separator
        [orgName, vdcName, edgeGateway.Name]
        (ruleList.map fun fw => edgeRef fw.Name fw.ID "")

/-- The function `lbAppProfileList`. -/
def lbAppProfileList (client : EdgeClient) (d : ResourceData) : List String × Option String :=
  match getEdgeGatewayDetails client d with
  | .error err =>
    ([], some ("error retrieving edge gateway '" ++ d.Get "parent" ++ "': " ++ err ++ " "))
  | .ok (orgName, vdcName, listMode, separator, edgeGateway) =>
    match edgeGateway.GetLbAppProfiles with
    | .error err => ([], some ("error retrieving LB app profile list: " ++ err ++ " "))
    | .ok profiles =>
      genericResourceList "vcd_lb_app_profile" listMode separator
        [orgName, vdcName, edgeGateway.Name]
        (profiles.map fun fw => edgeRef fw.Name fw.ID "")

/-- The references `nsxvNatRuleList` builds: one per rule whose `Action` is
`natType`, with an empty name and the rule's ID. -/
def nsxvNatRuleItems (natType : String) (rules : List EdgeNatRule) : List resourceRef :=
  rules.foldl (fun items rule =>
    if rule.Action = natType then items ++ [edgeRef "" rule.ID ""] else items) []

/-- The function `nsxvNatRuleList`. -/
def nsxvNatRuleList (natType : String) (client : EdgeClient) (d : ResourceData) :
    List String × Option String :=
  match getEdgeGatewayDetails client d with
  | .error err =>
    ([], some ("error retrieving edge gateway '" ++ d.Get "parent" ++ "': " ++ err ++ " "))
  | .ok (orgName, vdcName, listMode, separator, edgeGateway) =>
    match edgeGateway.GetNsxvNatRules with
    | .error err => ([], some ("error retrieving NSXV NAT rule list: " ++ err ++ " "))
    | .ok rules =>
      genericResourceList "vcd_lb_app_profile" listMode separator
        [orgName, vdcName, edgeGateway.Name] (nsxvNatRuleItems natType rules)

/-! ## The vcd_catalog_media resource and data source -/

/-- A value stored in an attribute of the media schema. -/
inductive Value where
  | str (s : String)
  | bool (b : Bool)
  | int (i : Int)
  | map (m : List (String × String))
  deriving DecidableEq, Repr

/-- The `schema.ResourceData` of a `vcd_catalog_media` resource or data source:
the attributes (the first pair of a key is its current value), the `filter`
block when one is given, and the ID (the empty string while unset). -/
structure MediaData where
  attrs : List (String × Value)
  filter : Option (List (String × String))
  id : String
  deriving DecidableEq, Repr

/-- The call `d.Get(key).(string)` on a media resource data: the string stored
under `key`, else the zero value of a string. -/
def MediaData.Get (d : MediaData) (key : String) : String :=
  match d.attrs.lookup key with
  | some (.str v) => v
  | _ => ""

/-- The call `d.SetId(v)` on a media resource data. -/
def MediaData.SetId (d : MediaData) (v : String) : MediaData :=
  { d with id := v }

/-- Modelled from the spec: the helper `dSet(d, key, value)` is missing from the
source files. Following "copying fields to/from the schema representation", it
stores `value` as the current value of attribute `key`. -/
def dSet (d : MediaData) (key : String) (value : Value) : MediaData :=
  { d with attrs := (key, value) :: d.attrs }

/-- Modelled from the spec: the helper `nameOrFilterIsSet(d)` is missing from
the source files. Following its name and the schema of the data source, where
exactly one of `name` and `filter` is given, it holds when the name is
non-empty or a filter block is present. -/
def nameOrFilterIsSet (d : MediaData) : Bool :=
  d.Get "name" != "" || d.filter.isSome

/-- The scan of Go `strings.Split` for a non-empty separator `sep`: `skip`
counts the characters of a matched separator still to pass over, `cur` holds
the current piece in reverse. -/
def splitGo (sep : List Char) : List Char → Nat → List Char → List String
  | [], _, cur => [String.mk cur.reverse]
  | _ :: cs, skip + 1, cur => splitGo sep cs skip cur
  | c :: cs, 0, cur =>
    if sep.isPrefixOf (c :: cs) then
      String.mk cur.reverse :: splitGo sep cs (sep.length - 1) []
    else
      splitGo sep cs 0 (c :: cur)

/-- Go `strings.Split(s, sep)`: the pieces of `s` between the occurrences of
`sep`; with an empty `sep`, the characters of `s`. -/
def stringsSplit (s sep : String) : List String :=
  if sep.data = [] then s.data.map fun c => String.mk [c]
  else splitGo sep.data s.data 0 []

/-- What the media functions use from outside the files at hand: the format
`errorRetrievingOrg` applied to its argument, the format `noNameOrFilterError`
applied to its argument, the message of `govcd.ErrorEntityNotFound`, the test
`govcd.IsNotFound` on a non-nil error, the helper `getMediaByFilter`, the helper
`getMetadataStruct` and the SDK call `d.Set("metadata", v)` (the resource data
it leaves behind and its error). -/
structure MediaExternals where
  errorRetrievingOrg : String → String
  noNameOrFilterError : String → String
  ErrorEntityNotFound : String
  IsNotFound : String → Bool
  getMediaByFilter : Catalog → List (String × String) → Bool → Except String Media
  getMetadataStruct : List (String × String) → List (String × String)
  dSetMetadata : MediaData → List (String × String) → MediaData × Option String

/-- The client as the media functions use it: `GetAdminOrgByName`,
`GetAdminOrgFromResource` and the flag `Client.IsSysAdmin`. -/
structure MediaClient where
  GetAdminOrgByName : String → Except String AdminOrg
  GetAdminOrgFromResource : MediaData → Except String AdminOrg
  IsSysAdmin : Bool

/-- The function `resourceVcdCatalogMediaImport`: the list of resource data it
returns, or its error. -/
def resourceVcdCatalogMediaImport (ext : MediaExternals) (client : MediaClient)
    (d : MediaData) : Except String (List MediaData) :=
  match stringsSplit d.id ImportSeparator with
  | [orgName, catalogName, mediaName] =>
    if orgName = "" then
      .error "import: empty org name provided"
    else if catalogName = "" then
      .error "import: empty catalog name provided"
    else if mediaName = "" then
      .error "import: empty media item name provided"
    else
      match client.GetAdminOrgByName orgName with
      | .error _ => .error (ext.errorRetrievingOrg orgName)
      | .ok adminOrg =>
        match adminOrg.GetCatalogByName catalogName with
        | .error _ => .error ext.ErrorEntityNotFound
        | .ok catalog =>
          match catalog.GetMediaByName mediaName with
          | .error _ => .error ext.ErrorEntityNotFound
          | .ok media =>
            let d := dSet d "org" (.str orgName)
            let d := dSet d "catalog" (.str catalogName)
            let d := dSet d "name" (.str mediaName)
            let d := dSet d "description" (.str media.Description)
            let d := d.SetId media.ID
            .ok [d]
  | _ => .error "resource name must be specified as org.catalog.my-media-name"

/-- The part of `genericVcdMediaRead` under `if origin == "datasource"`: an
early return with diagnostics, or the media the filter found (`none` while
`media` is still `nil`). -/
def mediaFromFilter (ext : MediaExternals) (client : MediaClient) (catalog : Catalog)
    (d : MediaData) (origin : String) : Except (List Diagnostic) (Option Media) :=
  if origin = "datasource" then
    if !nameOrFilterIsSet d then
      .error (diagFromErr (ext.noNameOrFilterError "vcd_catalog_media"))
    else
      match d.filter with
      | some filter =>
        match ext.getMediaByFilter catalog filter client.IsSysAdmin with
        | .error err => .error (diagFromErr err)
        | .ok media => .ok (some media)
      | none => .ok none
  else
    .ok none

/-- The end of `genericVcdMediaRead`, from `d.SetId(media.Media.ID)` on. -/
def mediaReadStore (ext : MediaExternals) (catalog : Catalog) (d : MediaData)
    (media : Media) : List Diagnostic × MediaData :=
  let d := d.SetId media.ID
  match catalog.QueryMedia media.Name with
  | .error err => (diagFromErr err, d)
  | .ok mediaRecord =>
    let d := dSet d "name" (.str media.Name)
    let d := dSet d "description" (.str media.Description)
    let d := dSet d "is_iso" (.bool mediaRecord.IsIso)
    let d := dSet d "owner_name" (.str mediaRecord.OwnerName)
    let d := dSet d "is_published" (.bool mediaRecord.IsPublished)
    let d := dSet d "creation_date" (.str mediaRecord.CreationDate)
    let d := dSet d "size" (.int mediaRecord.StorageB)
    let d := dSet d "status" (.str mediaRecord.Status)
    let d := dSet d "storage_profile_name" (.str mediaRecord.StorageProfileName)
    match media.GetMetadata with
    | .error err => (diagFromErr err, d)
    | .ok metadata =>
      match ext.dSetMetadata d (ext.getMetadataStruct metadata) with
      | (d1, some err) => (diagFromErr err, d1)
      | (d1, none) => ([], d1)

/-- The function `genericVcdMediaRead`: the diagnostics it returns (`[]` for
`nil`) and the resource data after it. -/
def genericVcdMediaRead (ext : MediaExternals) (client : MediaClient) (d : MediaData)
    (origin : String) : List Diagnostic × MediaData :=
  match client.GetAdminOrgFromResource d with
  | .error err => (diagFromErr (ext.errorRetrievingOrg err), d)
  | .ok org =>
    match org.GetCatalogByName (d.Get "catalog") with
    | .error err => (diagFromErr ("unable to find catalog: " ++ err), d)
    | .ok catalog =>
      match mediaFromFilter ext client catalog d origin with
      | .error diags => (diags, d)
      | .ok (some media) => mediaReadStore ext catalog d media
      | .ok none =>
        let identifier := d.id
        let identifier := if identifier = "" then d.Get "name" else identifier
        if identifier = "" then
          (diagFromErr "media identifier is empty", d)
        else
          match catalog.GetMediaByNameOrId identifier with
          | .error err =>
            if ext.IsNotFound err && origin = "resource" then
              ([], d.SetId "")
            else
              (diagFromErr err, d)
          | .ok media => mediaReadStore ext catalog d media

/-- The function `dataSourceVcdMediaRead`. -/
def dataSourceVcdMediaRead (ext : MediaExternals) (client : MediaClient) (d : MediaData) :
    List Diagnostic × MediaData :=
  genericVcdMediaRead ext client d "datasource"

/-! ## Loops that append one entry per element -/

/-- A left fold whose step appends exactly one image is a `map`. -/
theorem foldl_append_singleton {α β : Type} (step : List β → α → List β) (f : α → β)
    (hstep : ∀ l x, step l x = l ++ [f x]) (xs : List α) (init : List β) :
    xs.foldl step init = init ++ xs.map f := by
  induction xs generalizing init with
  | nil => simp
  | cons x xs ih => simp [List.foldl_cons, hstep, ih]

/-- In list mode "name" the loop maps every reference to its name. -/
theorem genericResourceList_name (resType sep : String) (ancestors : List String)
    (refs : List resourceRef) :
    genericResourceList resType "name" sep ancestors refs = (refs.map (·.name), none) := by
  unfold genericResourceList
  rw [foldl_append_singleton _ (·.name) (by intro l x; simp [genericResourceListStep])]
  simp

/-- In list mode "id" the loop maps every reference to its id. -/
theorem genericResourceList_id (resType sep : String) (ancestors : List String)
    (refs : List resourceRef) :
    genericResourceList resType "id" sep ancestors refs = (refs.map (·.id), none) := by
  unfold genericResourceList
  rw [foldl_append_singleton _ (·.id) (by intro l x; simp [genericResourceListStep])]
  simp

/-- In list mode "href" the loop maps every reference to its href. -/
theorem genericResourceList_href (resType sep : String) (ancestors : List String)
    (refs : List resourceRef) :
    genericResourceList resType "href" sep ancestors refs = (refs.map (·.href), none) := by
  unfold genericResourceList
  rw [foldl_append_singleton _ (·.href) (by intro l x; simp [genericResourceListStep])]
  simp

/-- In list mode "name_id" the loop maps every reference to name, separator, id. -/
theorem genericResourceList_name_id (resType sep : String) (ancestors : List String)
    (refs : List resourceRef) :
    genericResourceList resType "name_id" sep ancestors refs =
      (refs.map (fun r => r.name ++ sep ++ r.id), none) := by
  unfold genericResourceList
  rw [foldl_append_singleton _ (fun r => r.name ++ sep ++ r.id)
    (by intro l x; simp [genericResourceListStep])]
  simp

/-- In list mode "hierarchy" the loop maps every reference to one of the two
concatenations of the source, chosen by the emptiness of its parent. -/
theorem genericResourceList_hierarchy (resType sep : String) (ancestors : List String)
    (refs : List resourceRef) :
    genericResourceList resType "hierarchy" sep ancestors refs =
      (refs.map (fun r =>
        if r.parent ≠ "" then
          stringsJoin ancestors sep ++ sep ++ r.parent ++ sep ++ r.name
        else stringsJoin ancestors sep ++ sep ++ r.name), none) := by
  unfold genericResourceList
  rw [foldl_append_singleton _ (fun r =>
        if r.parent ≠ "" then
          stringsJoin ancestors sep ++ sep ++ r.parent ++ sep ++ r.name
        else stringsJoin ancestors sep ++ sep ++ r.name)
    (by intro l x; by_cases hp : x.parent = "" <;> simp [genericResourceListStep, hp])]
  simp

/-- In list mode "import" the loop maps every reference to its import command. -/
theorem genericResourceList_import (resType sep : String) (ancestors : List String)
    (refs : List resourceRef) :
    genericResourceList resType "import" sep ancestors refs =
      (refs.map (fun r => "terraform import " ++ resType ++ "." ++ r.name ++ " " ++
        stringsJoin ancestors ImportSeparator ++ ImportSeparator ++
        (if r.importId then r.id ++ " # " ++ r.parent ++ "/" ++ r.name else r.name)), none) := by
  unfold genericResourceList
  rw [foldl_append_singleton _ (fun r => "terraform import " ++ resType ++ "." ++ r.name ++ " " ++
        stringsJoin ancestors ImportSeparator ++ ImportSeparator ++
        (if r.importId then r.id ++ " # " ++ r.parent ++ "/" ++ r.name else r.name))
    (by intro l x; simp [genericResourceListStep])]
  simp

/-- In each of the six list modes the result is a `map` over the references,
with no error. -/
theorem genericResourceList_eq_map (resType listMode sep : String) (ancestors : List String)
    (h : listMode ∈ listModes) :
    ∃ f : resourceRef → String, ∀ refs : List resourceRef,
      genericResourceList resType listMode sep ancestors refs = (refs.map f, none) := by
  simp only [listModes, List.mem_cons, List.mem_singleton, List.not_mem_nil, or_false] at h
  rcases h with rfl | rfl | rfl | rfl | rfl | rfl
  · exact ⟨_, genericResourceList_name resType sep ancestors⟩
  · exact ⟨_, genericResourceList_id resType sep ancestors⟩
  · exact ⟨_, genericResourceList_name_id resType sep ancestors⟩
  · exact ⟨_, genericResourceList_hierarchy resType sep ancestors⟩
  · exact ⟨_, genericResourceList_href resType sep ancestors⟩
  · exact ⟨_, genericResourceList_import resType sep ancestors⟩

/-- Joining two ancestors puts the separator between them. -/
theorem stringsJoin_pair (a b sep : String) : stringsJoin [a, b] sep = a ++ sep ++ b := by
  simp [stringsJoin, String.intercalate, String.intercalate.go]

/-- A property that every appended reference has holds of all references the
loop of `vmList` has collected. -/
theorem vmListItems_foldl_forall (ext : Externals) (vmType vappName : String)
    (P : resourceRef → Prop)
    (hP : ∀ vm : QueryResultVMRecordType,
      P { name := vm.Name, id := "urn:vcloud:vm:" ++ ext.extractUuid vm.HREF, href := vm.HREF,
          parent := vm.ContainerName, importId := true })
    (vms : List QueryResultVMRecordType) (items : List resourceRef)
    (hitems : ∀ r ∈ items, P r) :
    ∀ r ∈ vms.foldl (vmListStep ext vmType vappName) items, P r := by
  induction vms generalizing items with
  | nil => simpa using hitems
  | cons vm vms ih =>
    rw [List.foldl_cons]
    apply ih
    intro r hr
    unfold vmListStep at hr
    split_ifs at hr
    · exact hitems r hr
    · exact hitems r hr
    · exact hitems r hr
    · rcases List.mem_append.mp hr with h | h
      · exact hitems r h
      · rw [List.mem_singleton.mp h]
        exact hP vm

/-- The `default` clause of the dispatch `switch` is reached exactly by the
strings that no `case` lists. -/
theorem selectListing_eq_none_iff (requested : String) :
    selectListing requested = none ↔ requested ∉ handledResourceTypes := by
  simp only [selectListing, handledResourceTypes, Option.map_eq_none', List.find?_eq_none,
    List.mem_flatMap, not_exists, not_and]
  constructor
  · intro h c hc hmem
    exact h c hc (by simpa using hmem)
  · intro h c hc hcontains
    exact h c hc (by simpa using hcontains)

/-- A list mode that matches no `case` leaves the list alone, so the loop of
`genericResourceList` returns the empty list whatever the references are. -/
theorem genericResourceList_unmatched (resType listMode sep : String) (ancestors : List String)
    (refs : List resourceRef) (h : listMode ∉ listModes) :
    genericResourceList resType listMode sep ancestors refs = ([], none) := by
  simp only [listModes, List.mem_cons, List.mem_singleton, List.not_mem_nil, or_false,
    not_or] at h
  obtain ⟨h1, h2, h3, h4, h5, h6⟩ := h
  have hstep : ∀ l r, genericResourceListStep resType listMode sep ancestors l r = l := by
    intro l r
    simp [genericResourceListStep, h1, h2, h3, h4, h5, h6]
  unfold genericResourceList
  congr 1
  induction refs with
  | nil => rfl
  | cons r refs ih => rw [List.foldl_cons, hstep]; exact ih

/-- No string that starts with "vcd_network_" is one of the short network
resource types. -/
theorem short_type_ne_long (wantedType networkType : String)
    (h : wantedType ∈ ["networks", "network_direct", "network_routed", "network_isolated"]) :
    wantedType ≠ "network" ∧ wantedType ≠ "vcd_network_" ++ networkType := by
  simp only [List.mem_cons, List.mem_singleton, List.not_mem_nil, or_false] at h
  rcases h with rfl | rfl | rfl | rfl <;>
  · refine ⟨by decide, ?_⟩
    intro heq
    have hd := congrArg String.data heq
    simp [String.data_append] at hd

/-- For the short network resource types every network is skipped: the loop of
`networkList` returns the list it started from, without error. -/
theorem networkListLoop_short_type (vdc : Vdc) (wantedType listMode sep orgName : String)
    (h : wantedType ∈ ["networks", "network_direct", "network_routed", "network_isolated"])
    (nets : List QueryResultOrgVdcNetworkRecordType) (networkType : String)
    (list : List String) :
    networkListLoop vdc wantedType listMode sep orgName nets networkType list = (list, none) := by
  induction nets generalizing networkType list with
  | nil => rfl
  | cons net nets ih =>
    obtain ⟨h1, h2⟩ := short_type_ne_long wantedType (networkTypeOf net.LinkType networkType) h
    simp only [networkListLoop, h1, h2, ne_eq, not_false_eq_true, if_true]
    exact ih _ _

/-- With `wantMedia` true the inner loop of `catalogItemList` keeps every
reference whose catalog item is found, whatever its entity type. -/
theorem catalogItemListInner_wantMedia (catalog : Catalog) (refs : List Reference)
    (items : List resourceRef)
    (hfound : ∀ r ∈ refs, ∃ item, catalog.GetCatalogItemByHref r.HREF = .ok item) :
    catalogItemListInner catalog true refs items =
      .ok (items ++ refs.map fun r =>
        { name := r.Name, id := r.ID, href := r.HREF, parent := "", importId := false }) := by
  induction refs generalizing items with
  | nil => simp [catalogItemListInner]
  | cons r refs ih =>
    obtain ⟨item, hitem⟩ := hfound r (List.mem_cons_self r refs)
    simp only [catalogItemListInner, hitem, ite_self, if_true]
    rw [ih _ (fun r' hr' => hfound r' (List.mem_cons_of_mem r hr'))]
    simp

/-- Without a parent `getEdgeGatewayDetails` returns an error. -/
theorem getEdgeGatewayDetails_no_parent (client : EdgeClient) (d : ResourceData)
    (h : d.Get "parent" = "") :
    ∃ err, getEdgeGatewayDetails client d = .error err := by
  unfold getEdgeGatewayDetails
  cases hc : client.GetOrgAndVdc (d.Get "org") (d.Get "vdc") with
  | error err => exact ⟨err, rfl⟩
  | ok r =>
    obtain ⟨orgName, vdcName, get⟩ := r
    exact ⟨"edge gateway name (as \"parent\") is required for this task", by simp [h]⟩

/-- Once the organization, the VDC and the VM query are found, `vmList` returns
a nil error, whatever the "parent" attribute holds: no path of the function
turns an empty parent into an error. -/
theorem vmList_error_none_of_found (ext : Externals) (client : VCDClient) (d : ResourceData)
    (vmType : String) (org : Org) (vdc : Vdc) (vms : List QueryResultVMRecordType)
    (hc : client.GetOrgAndVdc (d.Get "org") (d.Get "vdc") = .ok (org, vdc))
    (hq : vdc.QueryVmList = .ok vms) :
    (vmList ext client d vmType).2 = none := by
  simp only [vmList, hc, hq, genericResourceList]

/-! ## The claims about genericResourceList -/

/-- C1. For every resource type, separator, ancestor list and reference list,
and every list mode among "name", "id", "name_id", "hierarchy", "href" and
"import", `genericResourceList` returns no error and a list of exactly
`len(refs)` entries, and entry `i` is the single entry that
`genericResourceList` produces for the one-element list `[refs[i]]`. -/
theorem genericResourceList_one_entry_per_ref (resType listMode sep : String)
    (ancestors : List String) (refs : List resourceRef) (h : listMode ∈ listModes) :
    (genericResourceList resType listMode sep ancestors refs).2 = none ∧
    (genericResourceList resType listMode sep ancestors refs).1.length = refs.length ∧
    ∀ (i : Nat) (hi : i < refs.length), ∃ e : String,
      genericResourceList resType listMode sep ancestors [refs[i]] = ([e], none) ∧
      (genericResourceList resType listMode sep ancestors refs).1[i]? = some e := by
  obtain ⟨f, hf⟩ := genericResourceList_eq_map resType listMode sep ancestors h
  refine ⟨by rw [hf], by rw [hf]; simp, ?_⟩
  intro i hi
  refine ⟨f refs[i], by rw [hf]; simp, ?_⟩
  rw [hf]
  simp [List.getElem?_map, List.getElem?_eq_getElem hi]

/-- C1 at a concrete input: two references listed in mode "import". -/
theorem genericResourceList_one_entry_per_ref_witness :
    "import" ∈ listModes ∧
    (genericResourceList "vcd_vapp" "import" "  " ["org1", "vdc1"]
      [⟨"a", "id-a", "h-a", "", false⟩, ⟨"b", "id-b", "h-b", "", false⟩]).2 = none ∧
    (genericResourceList "vcd_vapp" "import" "  " ["org1", "vdc1"]
      [⟨"a", "id-a", "h-a", "", false⟩, ⟨"b", "id-b", "h-b", "", false⟩]).1.length =
      [(⟨"a", "id-a", "h-a", "", false⟩ : resourceRef), ⟨"b", "id-b", "h-b", "", false⟩].length :=
  ⟨by decide,
   (genericResourceList_one_entry_per_ref "vcd_vapp" "import" "  " ["org1", "vdc1"]
      [⟨"a", "id-a", "h-a", "", false⟩, ⟨"b", "id-b", "h-b", "", false⟩] (by decide)).1,
   (genericResourceList_one_entry_per_ref "vcd_vapp" "import" "  " ["org1", "vdc1"]
      [⟨"a", "id-a", "h-a", "", false⟩, ⟨"b", "id-b", "h-b", "", false⟩] (by decide)).2.1⟩

/-- C2. In list mode "name" (resp. "id", "href") `genericResourceList` returns
exactly the list of the references' name (resp. id, href) fields, whatever the
resource type, the separator and the ancestors. -/
theorem genericResourceList_single_field (resType sep : String) (ancestors : List String)
    (refs : List resourceRef) :
    genericResourceList resType "name" sep ancestors refs = (refs.map (·.name), none) ∧
    genericResourceList resType "id" sep ancestors refs = (refs.map (·.id), none) ∧
    genericResourceList resType "href" sep ancestors refs = (refs.map (·.href), none) :=
  ⟨genericResourceList_name resType sep ancestors refs,
   genericResourceList_id resType sep ancestors refs,
   genericResourceList_href resType sep ancestors refs⟩

/-- C3. In list mode "name_id" every entry is the reference's name, then the
separator, then the reference's id, for every separator (the empty one
included); and a resource data whose configuration leaves `name_id_separator`
out reads the schema default, two spaces, so that its entries are the name,
two spaces, the id. -/
theorem genericResourceList_name_id_separator (resType sep : String) (ancestors : List String)
    (refs : List resourceRef) (d : ResourceData)
    (hd : d.config.lookup "name_id_separator" = none) :
    genericResourceList resType "name_id" sep ancestors refs =
      (refs.map (fun r => r.name ++ sep ++ r.id), none) ∧
    schemaDefault "name_id_separator" = some "  " ∧
    d.Get "name_id_separator" = "  " ∧
    genericResourceList resType "name_id" (d.Get "name_id_separator") ancestors refs =
      (refs.map (fun r => r.name ++ "  " ++ r.id), none) := by
  have hdef : schemaDefault "name_id_separator" = some "  " := by decide
  have hget : d.Get "name_id_separator" = "  " := by
    simp [ResourceData.Get, hd, hdef]
  refine ⟨genericResourceList_name_id resType sep ancestors refs, hdef, hget, ?_⟩
  rw [hget]
  exact genericResourceList_name_id resType "  " ancestors refs

/-- C3 at a concrete input: the empty separator, and a configuration without
`name_id_separator`. -/
theorem genericResourceList_name_id_separator_witness :
    genericResourceList "vcd_org" "name_id" "" [] [⟨"a", "id-a", "h-a", "", false⟩] =
      (["a" ++ "" ++ "id-a"], none) ∧
    genericResourceList "vcd_org" "name_id"
        (ResourceData.Get ⟨[("name", "x")], none, ""⟩ "name_id_separator") []
        [⟨"a", "id-a", "h-a", "", false⟩] =
      (["a" ++ "  " ++ "id-a"], none) :=
  ⟨(genericResourceList_name_id_separator "vcd_org" "" [] [⟨"a", "id-a", "h-a", "", false⟩]
      ⟨[("name", "x")], none, ""⟩ (by decide)).1,
   (genericResourceList_name_id_separator "vcd_org" "" [] [⟨"a", "id-a", "h-a", "", false⟩]
      ⟨[("name", "x")], none, ""⟩ (by decide)).2.2.2⟩

/-- C4. In list mode "hierarchy" every entry is the ancestors joined by the
separator, then the separator, then (only when the reference's parent is
non-empty) the parent and the separator, then the reference's name. -/
theorem genericResourceList_hierarchy_entries (resType sep : String) (ancestors : List String)
    (refs : List resourceRef) :
    genericResourceList resType "hierarchy" sep ancestors refs =
      (refs.map (fun r =>
        stringsJoin ancestors sep ++ sep ++
          (if r.parent ≠ "" then r.parent ++ sep else "") ++ r.name), none) := by
  rw [genericResourceList_hierarchy]
  congr 1
  apply List.map_congr_left
  intro r _
  by_cases hp : r.parent = ""
  · simp [hp]
  · simp [hp, String.append_assoc]

/-- C5. In list mode "import" the entry of a reference whose `importId` flag is
false is "terraform import <resType>.<name> <path>", where the path is the
ancestors joined by ImportSeparator ("."), then ImportSeparator, then the
reference's name. -/
theorem genericResourceList_import_by_name (resType sep : String) (ancestors : List String)
    (refs : List resourceRef) (i : Nat) (hi : i < refs.length)
    (hflag : refs[i].importId = false) :
    ImportSeparator = "." ∧
    (genericResourceList resType "import" sep ancestors refs).1[i]? =
      some ("terraform import " ++ resType ++ "." ++ refs[i].name ++ " " ++
        (stringsJoin ancestors "." ++ "." ++ refs[i].name)) := by
  refine ⟨rfl, ?_⟩
  rw [genericResourceList_import]
  simp [List.getElem?_map, List.getElem?_eq_getElem hi, hflag, ImportSeparator,
    String.append_assoc]

/-- C5 at a concrete input: the second of two references, listed under the
ancestors org1 and vdc1. -/
theorem genericResourceList_import_by_name_witness :
    (genericResourceList "vcd_vapp" "import" "  " ["org1", "vdc1"]
      [⟨"a", "id-a", "h-a", "", true⟩, ⟨"b", "id-b", "h-b", "", false⟩]).1[1]? =
      some "terraform import vcd_vapp.b org1.vdc1.b" :=
  (genericResourceList_import_by_name "vcd_vapp" "  " ["org1", "vdc1"]
    [⟨"a", "id-a", "h-a", "", true⟩, ⟨"b", "id-b", "h-b", "", false⟩] 1 (by decide) rfl).2

/-! ## The claims about vmList -/

/-- C6. For VMs the import command uses the entity ID rather than the name:
every reference `vmList` builds has `importId` true and the id
"urn:vcloud:vm:" followed by `extractUuid(href)`; for a reference with
`importId` true the "import" entry under the ancestors org and vdc is
"terraform import vcd_vm.<name> <org>.<vdc>.<id> # <parent>/<name>"; and so,
when the organization, the VDC and the VM query are found, `vmList` in list
mode "import" returns exactly these commands, without error. -/
theorem vmList_import_uses_id (ext : Externals) (client : VCDClient) (d : ResourceData)
    (vmType : String) (org : Org) (vdc : Vdc) (vms : List QueryResultVMRecordType)
    (hc : client.GetOrgAndVdc (d.Get "org") (d.Get "vdc") = .ok (org, vdc))
    (hq : vdc.QueryVmList = .ok vms)
    (hm : d.Get "list_mode" = "import") :
    (∀ r ∈ vmListItems ext vmType (d.Get "parent") vms,
      r.importId = true ∧ r.id = "urn:vcloud:vm:" ++ ext.extractUuid r.href) ∧
    (∀ (r : resourceRef) (sep : String), r.importId = true →
      genericResourceList "vcd_vm" "import" sep [org.Name, vdc.Name] [r] =
        (["terraform import vcd_vm." ++ r.name ++ " " ++
          (org.Name ++ "." ++ vdc.Name ++ "." ++
            (r.id ++ " # " ++ r.parent ++ "/" ++ r.name))], none)) ∧
    vmList ext client d vmType =
      ((vmListItems ext vmType (d.Get "parent") vms).map (fun r =>
        "terraform import vcd_vm." ++ r.name ++ " " ++
          (org.Name ++ "." ++ vdc.Name ++ "." ++
            (r.id ++ " # " ++ r.parent ++ "/" ++ r.name))), none) := by
  have hitems : ∀ r ∈ vmListItems ext vmType (d.Get "parent") vms,
      r.importId = true ∧ r.id = "urn:vcloud:vm:" ++ ext.extractUuid r.href :=
    vmListItems_foldl_forall ext vmType (d.Get "parent")
      (fun r => r.importId = true ∧ r.id = "urn:vcloud:vm:" ++ ext.extractUuid r.href)
      (fun _ => ⟨rfl, rfl⟩) vms [] (by simp)
  refine ⟨hitems, ?_, ?_⟩
  · intro r sep hr
    rw [genericResourceList_import, stringsJoin_pair]
    simp [hr, ImportSeparator, String.append_assoc]
  · simp only [vmList, hc, hq, hm]
    rw [genericResourceList_import, stringsJoin_pair]
    congr 1
    apply List.map_congr_left
    intro r hr
    simp [(hitems r hr).1, ImportSeparator, String.append_assoc]

/-- C6 at a concrete input: one VM of the vApp app1 in VDC vdc1 of org1. -/
theorem vmList_import_uses_id_witness :
    vmList ⟨fun h => h, "vcd_vm", "vcd_vapp_vm"⟩
      ⟨fun _ _ => .ok (⟨"org1"⟩,
        ⟨"vdc1", .ok [⟨"vm1", "u-1", "app1", false⟩], .ok [], fun _ => .error "none"⟩)⟩
      ⟨[("list_mode", "import")], none, ""⟩ "all" =
      (["terraform import vcd_vm.vm1 org1.vdc1.urn:vcloud:vm:u-1 # app1/vm1"], none) :=
  (vmList_import_uses_id ⟨fun h => h, "vcd_vm", "vcd_vapp_vm"⟩
    ⟨fun _ _ => .ok (⟨"org1"⟩,
      ⟨"vdc1", .ok [⟨"vm1", "u-1", "app1", false⟩], .ok [], fun _ => .error "none"⟩)⟩
    ⟨[("list_mode", "import")], none, ""⟩ "all" ⟨"org1"⟩
    ⟨"vdc1", .ok [⟨"vm1", "u-1", "app1", false⟩], .ok [], fun _ => .error "none"⟩
    [⟨"vm1", "u-1", "app1", false⟩] rfl rfl (by decide)).2.2

/-! ## The claims about datasourceVcdResourceListRead -/

/-- C7. `datasourceVcdResourceListRead` fails for every resource type that is
not one of the strings listed in its dispatch switch: it returns one error
diagnostic with the message "unhandled resource type '<resource_type>'", calls
no listing function and leaves the resource data as it was, so neither the
"list" attribute nor the ID is set. The comparison is exact: "vcd_org" is
listed, "VCD_ORG" and the empty string are not. -/
theorem datasourceVcdResourceListRead_unhandled (env : ReadEnv) (d : ResourceData)
    (h : d.Get "resource_type" ∉ handledResourceTypes) :
    datasourceVcdResourceListRead env d =
      { diags := [{ severity := .Error
                    summary := "unhandled resource type '" ++ d.Get "resource_type" ++ "'" }]
        d := d
        called := [] } ∧
    (datasourceVcdResourceListRead env d).called = [] ∧
    (datasourceVcdResourceListRead env d).d.list = d.list ∧
    (datasourceVcdResourceListRead env d).d.id = d.id ∧
    "vcd_org" ∈ handledResourceTypes ∧
    "VCD_ORG" ∉ handledResourceTypes ∧
    "" ∉ handledResourceTypes := by
  have hsel := (selectListing_eq_none_iff (d.Get "resource_type")).mpr h
  have hread : datasourceVcdResourceListRead env d =
      { diags := [{ severity := .Error
                    summary := "unhandled resource type '" ++ d.Get "resource_type" ++ "'" }]
        d := d
        called := [] } := by
    simp only [datasourceVcdResourceListRead, hsel, diagFromErr]
  refine ⟨hread, by rw [hread], by rw [hread], by rw [hread], ?_, ?_, ?_⟩
  · decide
  · decide
  · decide

/-- C7 at two concrete inputs: a fresh resource data asking for "VCD_ORG", and
one asking for the empty resource type, with a listing environment that would
succeed if it were called. -/
theorem datasourceVcdResourceListRead_unhandled_witness :
    datasourceVcdResourceListRead ⟨fun _ _ => (["x"], none), fun d l => (d.SetList l, none)⟩
        ⟨[("name", "n"), ("resource_type", "VCD_ORG")], none, ""⟩ =
      { diags := [⟨.Error, "unhandled resource type 'VCD_ORG'"⟩]
        d := ⟨[("name", "n"), ("resource_type", "VCD_ORG")], none, ""⟩
        called := [] } ∧
    datasourceVcdResourceListRead ⟨fun _ _ => (["x"], none), fun d l => (d.SetList l, none)⟩
        ⟨[("name", "n"), ("resource_type", "")], none, ""⟩ =
      { diags := [⟨.Error, "unhandled resource type ''"⟩]
        d := ⟨[("name", "n"), ("resource_type", "")], none, ""⟩
        called := [] } :=
  ⟨(datasourceVcdResourceListRead_unhandled
      ⟨fun _ _ => (["x"], none), fun d l => (d.SetList l, none)⟩
      ⟨[("name", "n"), ("resource_type", "VCD_ORG")], none, ""⟩ (by decide)).1,
   (datasourceVcdResourceListRead_unhandled
      ⟨fun _ _ => (["x"], none), fun d l => (d.SetList l, none)⟩
      ⟨[("name", "n"), ("resource_type", "")], none, ""⟩ (by decide)).1⟩

/-- C8. Errors of the listing functions are propagated as diagnostics without
partial state: whenever the listing function that the read selects returns a
non-nil error, the read returns one error diagnostic carrying that error's
message and leaves the resource data as it was ("list" and the ID unset),
whatever list came along with the error. -/
theorem datasourceVcdResourceListRead_listing_error (env : ReadEnv) (d : ResourceData)
    (call : ListingCall) (list : List String) (err : String)
    (hsel : selectListing (d.Get "resource_type") = some call)
    (herr : env.listing call d = (list, some err)) :
    datasourceVcdResourceListRead env d =
      { diags := [{ severity := .Error, summary := err }], d := d, called := [call] } ∧
    (datasourceVcdResourceListRead env d).d.list = d.list ∧
    (datasourceVcdResourceListRead env d).d.id = d.id := by
  have hread : datasourceVcdResourceListRead env d =
      { diags := [{ severity := .Error, summary := err }], d := d, called := [call] } := by
    simp only [datasourceVcdResourceListRead, hsel, herr, diagFromErr]
  exact ⟨hread, by rw [hread], by rw [hread]⟩

/-- C8 at two concrete inputs: the VM listing of a client whose VM query fails
after the organization and the VDC were found, and an organization listing
that returns a partial list along with its error. -/
theorem datasourceVcdResourceListRead_listing_error_witness :
    datasourceVcdResourceListRead
        ⟨fun call d => match call with
          | .vmList t => vmList ⟨fun h => h, "vcd_vm", "vcd_vapp_vm"⟩
              ⟨fun _ _ => .ok (⟨"org1"⟩,
                ⟨"vdc1", .error "query failed", .ok [], fun _ => .error "none"⟩)⟩ d
              (t.val ⟨fun h => h, "vcd_vm", "vcd_vapp_vm"⟩)
          | _ => (["partial"], some "listing failed"),
         fun d l => (d.SetList l, none)⟩
        ⟨[("name", "n"), ("resource_type", "vms")], none, ""⟩ =
      { diags := [⟨.Error, "query failed"⟩]
        d := ⟨[("name", "n"), ("resource_type", "vms")], none, ""⟩
        called := [.vmList (.conv "all")] } ∧
    datasourceVcdResourceListRead
        ⟨fun _ _ => (["partial"], some "listing failed"), fun d l => (d.SetList l, none)⟩
        ⟨[("name", "n"), ("resource_type", "orgs")], none, ""⟩ =
      { diags := [⟨.Error, "listing failed"⟩]
        d := ⟨[("name", "n"), ("resource_type", "orgs")], none, ""⟩
        called := [.orgList] } :=
  ⟨(datasourceVcdResourceListRead_listing_error
    ⟨fun call d => match call with
      | .vmList t => vmList ⟨fun h => h, "vcd_vm", "vcd_vapp_vm"⟩
          ⟨fun _ _ => .ok (⟨"org1"⟩,
            ⟨"vdc1", .error "query failed", .ok [], fun _ => .error "none"⟩)⟩ d
          (t.val ⟨fun h => h, "vcd_vm", "vcd_vapp_vm"⟩)
      | _ => (["partial"], some "listing failed"),
     fun d l => (d.SetList l, none)⟩
    ⟨[("name", "n"), ("resource_type", "vms")], none, ""⟩
    (.vmList (.conv "all")) [] "query failed" (by decide) rfl).1,
   (datasourceVcdResourceListRead_listing_error
    ⟨fun _ _ => (["partial"], some "listing failed"), fun d l => (d.SetList l, none)⟩
    ⟨[("name", "n"), ("resource_type", "orgs")], none, ""⟩
    .orgList ["partial"] "listing failed" (by decide) rfl).1⟩

/-! ## Where the code departs from the claims -/

/-- C9 at the failing input. The validator of `list_mode` accepts the upper-case
spellings "NAME" and "Id", yet `genericResourceList` compares the list mode
exactly: for "NAME" and for "Id" it returns the empty list and no error for a
non-empty reference list, while the lower-case spellings list the reference. -/
theorem genericResourceList_upper_case_mode_lists_nothing :
    listModeValid "NAME" = true ∧
    listModeValid "Id" = true ∧
    genericResourceList "vcd_org_vdc" "NAME" "  " ["org1"]
      [⟨"a", "id-a", "h-a", "", false⟩] = ([], none) ∧
    genericResourceList "vcd_org_vdc" "name" "  " ["org1"]
      [⟨"a", "id-a", "h-a", "", false⟩] = (["a"], none) ∧
    genericResourceList "vcd_org_vdc" "Id" "  " ["org1"]
      [⟨"a", "id-a", "h-a", "", false⟩] = ([], none) ∧
    genericResourceList "vcd_org_vdc" "id" "  " ["org1"]
      [⟨"a", "id-a", "h-a", "", false⟩] = (["id-a"], none) := by
  refine ⟨?_, ?_, ?_, ?_, ?_, ?_⟩ <;> decide

/-- C10 at the failing input. For a VDC with the direct network net1 and the
routed network net2 the dispatch switch sends "networks" and "network_direct"
to `networkList`, which lists both networks for "network" and net1 for
"vcd_network_direct" but returns the empty list for "networks" and for
"network_direct". -/
theorem networkList_short_types_list_nothing :
    selectListing "networks" = some .networkList ∧
    selectListing "network_direct" = some .networkList ∧
    networkList
      ⟨fun _ _ => .ok (⟨"org1"⟩, ⟨"vdc1", .ok [], .ok [⟨0, "h1"⟩, ⟨1, "h2"⟩],
        fun h => if h = "h1" then .ok ⟨"net1", "id1", "h1"⟩ else .ok ⟨"net2", "id2", "h2"⟩⟩)⟩
      ⟨[("resource_type", "network")], none, ""⟩ = (["net1", "net2"], none) ∧
    networkList
      ⟨fun _ _ => .ok (⟨"org1"⟩, ⟨"vdc1", .ok [], .ok [⟨0, "h1"⟩, ⟨1, "h2"⟩],
        fun h => if h = "h1" then .ok ⟨"net1", "id1", "h1"⟩ else .ok ⟨"net2", "id2", "h2"⟩⟩)⟩
      ⟨[("resource_type", "networks")], none, ""⟩ = ([], none) ∧
    networkList
      ⟨fun _ _ => .ok (⟨"org1"⟩, ⟨"vdc1", .ok [], .ok [⟨0, "h1"⟩, ⟨1, "h2"⟩],
        fun h => if h = "h1" then .ok ⟨"net1", "id1", "h1"⟩ else .ok ⟨"net2", "id2", "h2"⟩⟩)⟩
      ⟨[("resource_type", "vcd_network_direct")], none, ""⟩ = (["net1"], none) ∧
    networkList
      ⟨fun _ _ => .ok (⟨"org1"⟩, ⟨"vdc1", .ok [], .ok [⟨0, "h1"⟩, ⟨1, "h2"⟩],
        fun h => if h = "h1" then .ok ⟨"net1", "id1", "h1"⟩ else .ok ⟨"net2", "id2", "h2"⟩⟩)⟩
      ⟨[("resource_type", "network_direct")], none, ""⟩ = ([], none) := by
  refine ⟨?_, ?_, ?_, ?_, ?_, ?_⟩ <;> decide

/-! ## The claims about catalogItemList and nsxvNatRuleList -/

/-- C11 at the failing input. For the catalog cat1 of org1, holding the vApp
template t1 and the media item m1, `catalogItemList` with `wantMedia` false
lists only t1, but with `wantMedia` true (the call of resource type
"vcd_catalog_media") it lists t1 as well as m1: the entry t1 belongs to a
catalog item whose entity type is not the media type. -/
theorem catalogItemList_media_lists_templates :
    selectListing "vcd_catalog_media" = some (.catalogItemList true) ∧
    catalogItemList
      (fun _ => .ok ⟨"org1", fun _ => .ok
        ⟨[[⟨"t1", "id-t1", "h-t1"⟩, ⟨"m1", "id-m1", "h-m1"⟩]],
         fun h => if h = "h-m1" then .ok ⟨"application/vnd.vmware.vcloud.media+xml"⟩
                  else .ok ⟨"application/vnd.vmware.vcloud.vAppTemplate+xml"⟩,
         fun _ => .error "none", fun _ => .error "none", fun _ => .error "none"⟩⟩)
      ⟨[("parent", "cat1")], none, ""⟩ true = (["t1", "m1"], none) ∧
    catalogItemList
      (fun _ => .ok ⟨"org1", fun _ => .ok
        ⟨[[⟨"t1", "id-t1", "h-t1"⟩, ⟨"m1", "id-m1", "h-m1"⟩]],
         fun h => if h = "h-m1" then .ok ⟨"application/vnd.vmware.vcloud.media+xml"⟩
                  else .ok ⟨"application/vnd.vmware.vcloud.vAppTemplate+xml"⟩,
         fun _ => .error "none", fun _ => .error "none", fun _ => .error "none"⟩⟩)
      ⟨[("parent", "cat1")], none, ""⟩ false = (["t1"], none) := by
  refine ⟨?_, ?_, ?_⟩ <;> decide

/-- C12 at the failing input. For the edge gateway egw1 of vdc1 in org1 with the
DNAT rule 196609, `nsxvNatRuleList` in list mode "import" returns the entry
"terraform import vcd_lb_app_profile. org1.vdc1.egw1.", which names the
resource type vcd_lb_app_profile instead of vcd_nsxv_dnat and ends with the
empty name of the reference instead of the rule's ID. -/
theorem nsxvNatRuleList_import_wrong_type_and_id :
    selectListing "vcd_nsxv_dnat" = some (.nsxvNatRuleList "dnat") ∧
    nsxvNatRuleList "dnat"
      ⟨fun _ _ => .ok ("org1", "vdc1", fun _ => .ok
        ⟨"egw1", .ok [], .ok [], .ok [], .ok [], .ok [], .ok [],
         .ok [⟨"dnat", "196609"⟩, ⟨"snat", "196610"⟩]⟩)⟩
      ⟨[("parent", "egw1"), ("list_mode", "import")], none, ""⟩ =
      (["terraform import vcd_lb_app_profile. org1.vdc1.egw1."], none) := by
  refine ⟨?_, ?_⟩ <;> decide

/-- C13 at the failing input. For the catalog cat1 of org1 holding the media
item m1, `catalogItemList` with `wantMedia` true in list mode "import" returns
"terraform import vcd_catalog_item.m1 org1.cat1.m1": the command names the
resource type vcd_catalog_item, not vcd_catalog_media. -/
theorem catalogItemList_media_import_names_catalog_item :
    selectListing "vcd_catalog_media" = some (.catalogItemList true) ∧
    selectListing "mediaitems" = some (.catalogItemList true) ∧
    catalogItemList
      (fun _ => .ok ⟨"org1", fun _ => .ok
        ⟨[[⟨"m1", "id-m1", "h-m1"⟩]],
         fun _ => .ok ⟨"application/vnd.vmware.vcloud.media+xml"⟩,
         fun _ => .error "none", fun _ => .error "none", fun _ => .error "none"⟩⟩)
      ⟨[("parent", "cat1"), ("list_mode", "import")], none, ""⟩ true =
      (["terraform import vcd_catalog_item.m1 org1.cat1.m1"], none) := by
  refine ⟨?_, ?_, ?_⟩ <;> decide

/-! ## The claims about the parent attribute -/

/-- C14. A parent is needed for catalog items, media items and all edge gateway
objects: when the "parent" attribute is empty, `catalogItemList` (for catalog
items and for media items) and every listing built on `getEdgeGatewayDetails`
(server pools, service monitors, virtual servers, application rules,
application profiles, NSX-V firewall rules, DNAT and SNAT rules) return a
non-nil error and an empty list, whatever the client answers and whatever the
other attributes are. -/
theorem parent_required (GetAdminOrg : String → Except String AdminOrg) (client : EdgeClient)
    (d : ResourceData) (wantMedia : Bool) (natType : String) (h : d.Get "parent" = "") :
    ((catalogItemList GetAdminOrg d wantMedia).1 = [] ∧
      (catalogItemList GetAdminOrg d wantMedia).2 ≠ none) ∧
    ((lbServerPoolList client d).1 = [] ∧ (lbServerPoolList client d).2 ≠ none) ∧
    ((lbServiceMonitorList client d).1 = [] ∧ (lbServiceMonitorList client d).2 ≠ none) ∧
    ((lbVirtualServerList client d).1 = [] ∧ (lbVirtualServerList client d).2 ≠ none) ∧
    ((lbAppRuleList client d).1 = [] ∧ (lbAppRuleList client d).2 ≠ none) ∧
    ((lbAppProfileList client d).1 = [] ∧ (lbAppProfileList client d).2 ≠ none) ∧
    ((nsxvFirewallList client d).1 = [] ∧ (nsxvFirewallList client d).2 ≠ none) ∧
    ((nsxvNatRuleList natType client d).1 = [] ∧
      (nsxvNatRuleList natType client d).2 ≠ none) := by
  obtain ⟨err, herr⟩ := getEdgeGatewayDetails_no_parent client d h
  refine ⟨?_, ?_, ?_, ?_, ?_, ?_, ?_, ?_⟩
  · unfold catalogItemList
    cases GetAdminOrg (d.Get "org") with
    | error e => simp
    | ok org => simp [h]
  · simp [lbServerPoolList, herr]
  · simp [lbServiceMonitorList, herr]
  · simp [lbVirtualServerList, herr]
  · simp [lbAppRuleList, herr]
  · simp [lbAppProfileList, herr]
  · simp [nsxvFirewallList, herr]
  · simp [nsxvNatRuleList, herr]

/-- C14 at a concrete input: no parent is configured, the organization, the VDC
and every edge gateway exist, and the catalog item listing and the DNAT rule
listing both fail with an empty list. -/
theorem parent_required_witness :
    ResourceData.Get ⟨[("list_mode", "id")], none, ""⟩ "parent" = "" ∧
    ((catalogItemList
      (fun _ => .ok ⟨"org1", fun _ => .ok
        ⟨[[⟨"t1", "id-t1", "h-t1"⟩]], fun _ => .ok ⟨"x"⟩,
         fun _ => .error "none", fun _ => .error "none", fun _ => .error "none"⟩⟩)
      ⟨[("list_mode", "id")], none, ""⟩ false).1 = [] ∧
     (catalogItemList
      (fun _ => .ok ⟨"org1", fun _ => .ok
        ⟨[[⟨"t1", "id-t1", "h-t1"⟩]], fun _ => .ok ⟨"x"⟩,
         fun _ => .error "none", fun _ => .error "none", fun _ => .error "none"⟩⟩)
      ⟨[("list_mode", "id")], none, ""⟩ false).2 ≠ none) ∧
    ((nsxvNatRuleList "dnat"
      ⟨fun _ _ => .ok ("org1", "vdc1", fun _ => .ok
        ⟨"egw1", .ok [], .ok [], .ok [], .ok [], .ok [], .ok [], .ok [⟨"dnat", "1"⟩]⟩)⟩
      ⟨[("list_mode", "id")], none, ""⟩).1 = [] ∧
     (nsxvNatRuleList "dnat"
      ⟨fun _ _ => .ok ("org1", "vdc1", fun _ => .ok
        ⟨"egw1", .ok [], .ok [], .ok [], .ok [], .ok [], .ok [], .ok [⟨"dnat", "1"⟩]⟩)⟩
      ⟨[("list_mode", "id")], none, ""⟩).2 ≠ none) :=
  have hw := parent_required
    (fun _ => .ok ⟨"org1", fun _ => .ok
      ⟨[[⟨"t1", "id-t1", "h-t1"⟩]], fun _ => .ok ⟨"x"⟩,
       fun _ => .error "none", fun _ => .error "none", fun _ => .error "none"⟩⟩)
    ⟨fun _ _ => .ok ("org1", "vdc1", fun _ => .ok
      ⟨"egw1", .ok [], .ok [], .ok [], .ok [], .ok [], .ok [], .ok [⟨"dnat", "1"⟩]⟩)⟩
    ⟨[("list_mode", "id")], none, ""⟩ false "dnat" (by decide)
  ⟨by decide, hw.1, hw.2.2.2.2.2.2.2⟩

/-- C15 at the failing input. The resource types "vcd_vapp_vm", "vapp_vm" and
"vapp_vms" call `vmList` with `vappVmType`, and for a VDC with vm1 in vApp
app1, vm2 in vApp app2 and the standalone vm3, `vmList` with no parent returns
the list of vm1 and vm2 and a nil error, where a parent is needed and an error
is due. -/
theorem vmList_empty_parent_no_error :
    selectListing "vcd_vapp_vm" = some (.vmList .vappVmType) ∧
    selectListing "vapp_vm" = some (.vmList .vappVmType) ∧
    selectListing "vapp_vms" = some (.vmList .vappVmType) ∧
    ResourceData.Get ⟨[("resource_type", "vapp_vm")], none, ""⟩ "parent" = "" ∧
    vmList ⟨fun h => h, "vcd_vm", "vcd_vapp_vm"⟩
      ⟨fun _ _ => .ok (⟨"org1"⟩,
        ⟨"vdc1", .ok [⟨"vm1", "u-1", "app1", false⟩, ⟨"vm2", "u-2", "app2", false⟩,
                      ⟨"vm3", "u-3", "vm3-hidden", true⟩],
         .ok [], fun _ => .error "none"⟩)⟩
      ⟨[("resource_type", "vapp_vm")], none, ""⟩
      (typeOfVm.val ⟨fun h => h, "vcd_vm", "vcd_vapp_vm"⟩ .vappVmType) =
      (["vm1", "vm2"], none) := by
  refine ⟨?_, ?_, ?_, ?_, ?_⟩ <;> decide

/-! ## The claims about the vcd_catalog_media resource and data source -/

/-- C16. When `resourceVcdCatalogMediaImport` succeeds, that is when the ID
splits at ImportSeparator into three non-empty parts and the organization, the
catalog and the media item are found, it returns a list holding exactly the one
resource data it was given, with the attributes org, catalog and name set to
the first, second and third part of the import ID, description set to the
description of the media found and the ID set to the ID of the media found;
the filter and every other attribute are as they were. -/
theorem resourceVcdCatalogMediaImport_success (ext : MediaExternals) (client : MediaClient)
    (d : MediaData) (orgName catalogName mediaName : String)
    (adminOrg : AdminOrg) (catalog : Catalog) (media : Media)
    (hsplit : stringsSplit d.id ImportSeparator = [orgName, catalogName, mediaName])
    (horgName : orgName ≠ "") (hcatalogName : catalogName ≠ "") (hmediaName : mediaName ≠ "")
    (horg : client.GetAdminOrgByName orgName = .ok adminOrg)
    (hcatalog : adminOrg.GetCatalogByName catalogName = .ok catalog)
    (hmedia : catalog.GetMediaByName mediaName = .ok media) :
    ∃ d1 : MediaData,
      resourceVcdCatalogMediaImport ext client d = .ok [d1] ∧
      d1.Get "org" = orgName ∧
      d1.Get "catalog" = catalogName ∧
      d1.Get "name" = mediaName ∧
      d1.Get "description" = media.Description ∧
      d1.id = media.ID ∧
      d1.filter = d.filter ∧
      ∀ key : String, key ∉ ["org", "catalog", "name", "description"] →
        d1.attrs.lookup key = d.attrs.lookup key := by
  refine ⟨(dSet (dSet (dSet (dSet d "org" (.str orgName)) "catalog" (.str catalogName))
      "name" (.str mediaName)) "description" (.str media.Description)).SetId media.ID,
    ?_, ?_, ?_, ?_, ?_, rfl, rfl, ?_⟩
  · unfold resourceVcdCatalogMediaImport
    rw [hsplit]
    simp only [horgName, hcatalogName, hmediaName, horg, hcatalog, hmedia, if_false]
  · simp [MediaData.Get, MediaData.SetId, dSet, List.lookup]
  · simp [MediaData.Get, MediaData.SetId, dSet, List.lookup]
  · simp [MediaData.Get, MediaData.SetId, dSet, List.lookup]
  · simp [MediaData.Get, MediaData.SetId, dSet, List.lookup]
  · intro key hkey
    simp only [List.mem_cons, List.mem_singleton, List.not_mem_nil, or_false, not_or] at hkey
    obtain ⟨h1, h2, h3, h4⟩ := hkey
    have e1 : (key == "org") = false := by simpa using h1
    have e2 : (key == "catalog") = false := by simpa using h2
    have e3 : (key == "name") = false := by simpa using h3
    have e4 : (key == "description") = false := by simpa using h4
    simp [MediaData.SetId, dSet, List.lookup, e1, e2, e3, e4]

/-- C16 at a concrete input: the import ID "org1.cat1.media1" with all three
lookups succeeding. -/
theorem resourceVcdCatalogMediaImport_success_witness :
    ∃ d1 : MediaData,
      resourceVcdCatalogMediaImport
          ⟨fun s => "error retrieving org " ++ s, fun s => "no name or filter for " ++ s,
           "[ENF] entity not found", fun _ => false, fun _ _ _ => .error "no filter",
           fun m => m, fun d _ => (d, none)⟩
          ⟨fun _ => .ok ⟨"org1", fun _ => .ok
              ⟨[], fun _ => .error "none",
               fun _ => .ok ⟨"urn:vcloud:media:1", "media1", "an ISO", .ok []⟩,
               fun _ => .error "none", fun _ => .error "none"⟩⟩,
           fun _ => .error "none", false⟩
          ⟨[("upload_piece_size", .int 5)], none, "org1.cat1.media1"⟩ = .ok [d1] ∧
      d1.Get "org" = "org1" ∧
      d1.Get "catalog" = "cat1" ∧
      d1.Get "name" = "media1" ∧
      d1.Get "description" = "an ISO" ∧
      d1.id = "urn:vcloud:media:1" :=
  have ⟨d1, h0, h1, h2, h3, h4, h5, _⟩ := resourceVcdCatalogMediaImport_success
    ⟨fun s => "error retrieving org " ++ s, fun s => "no name or filter for " ++ s,
     "[ENF] entity not found", fun _ => false, fun _ _ _ => .error "no filter",
     fun m => m, fun d _ => (d, none)⟩
    ⟨fun _ => .ok ⟨"org1", fun _ => .ok
        ⟨[], fun _ => .error "none",
         fun _ => .ok ⟨"urn:vcloud:media:1", "media1", "an ISO", .ok []⟩,
         fun _ => .error "none", fun _ => .error "none"⟩⟩,
     fun _ => .error "none", false⟩
    ⟨[("upload_piece_size", .int 5)], none, "org1.cat1.media1"⟩
    "org1" "cat1" "media1"
    ⟨"org1", fun _ => .ok
        ⟨[], fun _ => .error "none",
         fun _ => .ok ⟨"urn:vcloud:media:1", "media1", "an ISO", .ok []⟩,
         fun _ => .error "none", fun _ => .error "none"⟩⟩
    ⟨[], fun _ => .error "none",
     fun _ => .ok ⟨"urn:vcloud:media:1", "media1", "an ISO", .ok []⟩,
     fun _ => .error "none", fun _ => .error "none"⟩
    ⟨"urn:vcloud:media:1", "media1", "an ISO", .ok []⟩
    (by decide) (by decide) (by decide) (by decide) rfl rfl rfl
  ⟨d1, h0, h1, h2, h3, h4, h5⟩

/-- C17. The read of the vcd_catalog_media data source returns an error holding
the text of `govcd.ErrorEntityNotFound` when the object is not found: for
`genericVcdMediaRead` with origin "datasource" (the call of
`dataSourceVcdMediaRead`), an organization and a catalog that are found, a
non-empty name and no filter, if the media lookup returns
`govcd.ErrorEntityNotFound` then the result is one error diagnostic whose
message is, and so contains, that error's text, and the resource data is as it
was: the ID is not set. -/
theorem dataSourceVcdMediaRead_not_found (ext : MediaExternals) (client : MediaClient)
    (d : MediaData) (org : AdminOrg) (catalog : Catalog)
    (horg : client.GetAdminOrgFromResource d = .ok org)
    (hcatalog : org.GetCatalogByName (d.Get "catalog") = .ok catalog)
    (hname : d.Get "name" ≠ "")
    (hfilter : d.filter = none)
    (hlookup : catalog.GetMediaByNameOrId (if d.id = "" then d.Get "name" else d.id) =
      .error ext.ErrorEntityNotFound) :
    genericVcdMediaRead ext client d "datasource" =
      ([{ severity := .Error, summary := ext.ErrorEntityNotFound }], d) ∧
    dataSourceVcdMediaRead ext client d = genericVcdMediaRead ext client d "datasource" ∧
    (∀ diag ∈ (dataSourceVcdMediaRead ext client d).1,
      diag.severity = .Error ∧ ext.ErrorEntityNotFound.data <:+: diag.summary.data) ∧
    (dataSourceVcdMediaRead ext client d).1 ≠ [] ∧
    (dataSourceVcdMediaRead ext client d).2.id = d.id := by
  have hident : (if d.id = "" then d.Get "name" else d.id) ≠ "" := by
    by_cases hid : d.id = ""
    · simpa [hid] using hname
    · simp [hid]
  have hread : genericVcdMediaRead ext client d "datasource" =
      ([{ severity := .Error, summary := ext.ErrorEntityNotFound }], d) := by
    simp [genericVcdMediaRead, mediaFromFilter, nameOrFilterIsSet, horg, hcatalog, hname,
      hfilter, hident, hlookup, diagFromErr]
  refine ⟨hread, rfl, ?_, ?_, ?_⟩
  · intro diag hdiag
    rw [dataSourceVcdMediaRead, hread] at hdiag
    rw [List.mem_singleton.mp hdiag]
    exact ⟨rfl, List.infix_refl _⟩
  · rw [dataSourceVcdMediaRead, hread]
    simp
  · rw [dataSourceVcdMediaRead, hread]

/-- C17 at a concrete input: the data source asked for the media "missing" of
catalog cat1, which the catalog does not hold. -/
theorem dataSourceVcdMediaRead_not_found_witness :
    dataSourceVcdMediaRead
        ⟨fun s => "error retrieving org " ++ s, fun s => "no name or filter for " ++ s,
         "[ENF] entity not found", fun e => e == "[ENF] entity not found",
         fun _ _ _ => .error "no filter", fun m => m, fun d _ => (d, none)⟩
        ⟨fun _ => .error "none",
         fun _ => .ok ⟨"org1", fun _ => .ok
            ⟨[], fun _ => .error "none", fun _ => .error "[ENF] entity not found",
             fun _ => .error "[ENF] entity not found", fun _ => .error "none"⟩⟩,
         false⟩
        ⟨[("catalog", .str "cat1"), ("name", .str "missing")], none, ""⟩ =
      ([⟨.Error, "[ENF] entity not found"⟩],
       ⟨[("catalog", .str "cat1"), ("name", .str "missing")], none, ""⟩) :=
  (dataSourceVcdMediaRead_not_found
    ⟨fun s => "error retrieving org " ++ s, fun s => "no name or filter for " ++ s,
     "[ENF] entity not found", fun e => e == "[ENF] entity not found",
     fun _ _ _ => .error "no filter", fun m => m, fun d _ => (d, none)⟩
    ⟨fun _ => .error "none",
     fun _ => .ok ⟨"org1", fun _ => .ok
        ⟨[], fun _ => .error "none", fun _ => .error "[ENF] entity not found",
         fun _ => .error "[ENF] entity not found", fun _ => .error "none"⟩⟩,
     false⟩
    ⟨[("catalog", .str "cat1"), ("name", .str "missing")], none, ""⟩
    ⟨"org1", fun _ => .ok
        ⟨[], fun _ => .error "none", fun _ => .error "[ENF] entity not found",
         fun _ => .error "[ENF] entity not found", fun _ => .error "none"⟩⟩
    ⟨[], fun _ => .error "none", fun _ => .error "[ENF] entity not found",
     fun _ => .error "[ENF] entity not found", fun _ => .error "none"⟩
    rfl rfl (by decide) rfl rfl).1

end Vcd
